import Mathlib

/-!
Verification development for the agent-connect navigation retry orchestrator.

The TypeScript sources embedded here:
- the explicit retry orchestrator GotoRunner.goto together with its local
  helpers backoffDelay and compileRetryable (file with DynamicProxy and
  GotoRunner, called the goto file below);
- the event-driven orchestrator EventRunner in two variants: the
  failure-notification-only variant (the EventRunner file that checks the
  resource type, called variant 3 below) and src/event-runner.ts (called
  variant Src below);
- the option resolution and environment defaulting in src/index.ts
  (agentConnect, ENV_MAX_RETRIES, ENV_BACKOFF_MS, ENV_RETRY_ON,
  DEFAULT_RETRY_PATTERNS).

JavaScript error values are modelled by the structure ErrVal recording the
fields the classifiers read (message, errorText, code, name), the result of
String(v), whether the value is an instance of Error, and its truthiness.
Promise-returning collaborators (navigation, credential acquisition, the
observer callback) are oracles supplied by a world structure, one outcome
per attempt index; the orchestrator definitions consume the oracle exactly
where the source awaits the corresponding call and record every observable
action in an event trace.
-/

/-- A JavaScript value as seen by the failure classifiers and the throw
sites: the optional fields the code reads, the result of String(v), whether
the value is an instance of Error, and its truthiness. An Option field set
to none models an absent (undefined) property. -/
structure ErrVal where
  message : Option String := none
  errorText : Option String := none
  code : Option String := none
  name : Option String := none
  str : String := ""
  isError : Bool := false
  truthy : Bool := true
deriving DecidableEq, Repr

/-- ProxySettings from the source: server plus optional username and
password. -/
structure ProxySettings where
  server : String
  username : Option String := none
  password : Option String := none
deriving DecidableEq, Repr

/-- RetryPattern: a literal substring or a regular expression. A regular
expression is modelled by its source text and its test function on
strings. -/
inductive RetryPattern where
  | str (s : String)
  | regex (source : String) (test : String → Bool)

/-- Substring containment, the semantics of String.prototype.includes:
some window of the haystack of the needle length equals the needle. -/
def strContains (hay need : String) : Bool :=
  (List.range (hay.data.length + 1)).any fun i =>
    decide (((hay.data.drop i).take need.data.length) = need.data)

/-- Specification-side containment predicate: the needle occurs at some
offset of the haystack. -/
def ContainsSpec (hay need : String) : Prop :=
  ∃ i, ((hay.data.drop i).take need.data.length) = need.data

theorem strContains_iff (hay need : String) :
    strContains hay need = true ↔ ContainsSpec hay need := by
  constructor
  · intro hc
    rcases List.any_eq_true.mp hc with ⟨i, _, hi⟩
    exact ⟨i, of_decide_eq_true hi⟩
  · rintro ⟨i, hi⟩
    by_cases hle : i ≤ hay.data.length
    · exact List.any_eq_true.mpr
        ⟨i, List.mem_range.mpr (Nat.lt_succ_of_le hle), decide_eq_true hi⟩
    · have hdrop : hay.data.drop i = [] :=
        List.drop_eq_nil_of_le (le_of_lt (Nat.lt_of_not_le hle))
      rw [hdrop] at hi
      have hneed : need.data = [] := by
        simpa using hi.symm
      refine List.any_eq_true.mpr ⟨0, List.mem_range.mpr (Nat.succ_pos _), ?_⟩
      apply decide_eq_true
      simp [hneed]

/-- One pattern applied to the three derived strings, exactly the ternary
in both compileRetryable variants: regex patterns test each string, string
patterns use substring containment on each. -/
def patternHits (p : RetryPattern) (m c n : String) : Bool :=
  match p with
  | .str s => strContains m s || strContains c s || strContains n s
  | .regex _ t => t m || t c || t n

/-- Specification-side restatement of a single pattern match. -/
def MatchesSpec (p : RetryPattern) (m c n : String) : Prop :=
  match p with
  | .str s => ContainsSpec m s ∨ ContainsSpec c s ∨ ContainsSpec n s
  | .regex _ t => t m = true ∨ t c = true ∨ t n = true

theorem patternHits_iff (p : RetryPattern) (m c n : String) :
    patternHits p m c n = true ↔ MatchesSpec p m c n := by
  cases p <;>
    simp [patternHits, MatchesSpec, Bool.or_eq_true, strContains_iff, or_assoc]

/-- String((err)?.message ?? (err) ?? "") for a present value: the message
field when present (an empty string message is kept, since ?? only skips
null and undefined), otherwise String(err). -/
def gotoMsg (e : ErrVal) : String := e.message.getD e.str

/-- String((err)?.code ?? ""). -/
def gotoCode (e : ErrVal) : String := e.code.getD ""

/-- String((err)?.name ?? ""). -/
def gotoName (e : ErrVal) : String := e.name.getD ""

/-- compileRetryable of the goto file applied to a caught value: absent or
falsy failures are rejected up front (if (!err) return false), then some
pattern must hit one of message, code, name. -/
def compileRetryableGoto (ps : List RetryPattern) (e : ErrVal) : Bool :=
  if e.truthy then
    ps.any fun p => patternHits p (gotoMsg e) (gotoCode e) (gotoName e)
  else false

/-- String((errLike)?.errorText ?? (errLike)?.message ?? (errLike) ?? "")
of the event-runner variant; none models a null or undefined errLike, for
which every chain member is nullish and the result is the empty string. -/
def eventMsg : Option ErrVal → String
  | none => ""
  | some v => ((v.errorText).or v.message).getD v.str

/-- String((errLike)?.code ?? "") of the event-runner variant. -/
def eventCode : Option ErrVal → String
  | none => ""
  | some v => v.code.getD ""

/-- String((errLike)?.name ?? "") of the event-runner variant. -/
def eventName : Option ErrVal → String
  | none => ""
  | some v => v.name.getD ""

/-- compileRetryable of the event-runner files: no truthiness guard, the
derived strings of an absent failure are all empty. -/
def compileRetryableEvent (ps : List RetryPattern) (e : Option ErrVal) : Bool :=
  ps.any fun p => patternHits p (eventMsg e) (eventCode e) (eventName e)

/-- The fresh object built by the requestfailed handlers for the
classifier: an object whose only meaningful field is errorText.
String of a plain object is the bracketed object tag. -/
def errorTextObj (s : String) : ErrVal :=
  { errorText := some s, str := "[object Object]", truthy := true }

/-- The value of new Error(m): message m, name Error, truthy, an Error
instance, String(v) prefixed by the name. -/
def jsNewError (m : String) : ErrVal :=
  { message := some m, name := some "Error", str := "Error: " ++ m,
    isError := true, truthy := true }

/-- The final rethrow of GotoRunner.goto: an Error instance is rethrown
as is, any other value is wrapped in new Error(String(v)), a falsy value
in new Error with the fixed navigation-failed message. -/
def wrapNonError (e : ErrVal) : ErrVal :=
  if e.isError then e
  else jsNewError (if e.truthy then e.str else "Navigation failed")

/-- The AluviaError thrown when no credential could be obtained for a
retry attempt (code ProxyFetchFailed). -/
def aluviaProxyFetchError : ErrVal :=
  { message := some "Failed to obtain a proxy for retry attempts. Check your balance and proxy pool at https://dashboard.aluvia.io/.",
    name := some "AluviaError",
    code := some "ALUVIA_PROXY_FETCH_FAILED",
    str := "AluviaError: Failed to obtain a proxy for retry attempts. Check your balance and proxy pool at https://dashboard.aluvia.io/.",
    isError := true, truthy := true }

/-- The AluviaError thrown by agentConnect when no dynamic proxy is
supplied (code NoDynamicProxy). -/
def noDynamicProxyError : ErrVal :=
  { message := some "No dynamic proxy supplied to agentConnect",
    name := some "AluviaError",
    code := some "ALUVIA_NO_DYNAMIC_PROXY",
    str := "AluviaError: No dynamic proxy supplied to agentConnect",
    isError := true, truthy := true }

/-- backoffDelay(base, attempt) with the Math.random()*100 sample passed
in explicitly: base * 2 ^ attempt + jitter. -/
def backoffDelay (base : Nat) (attempt : Nat) (jitter : ℚ) : ℚ :=
  (base : ℚ) * 2 ^ attempt + jitter

/-- Outcome of one awaited navigation primitive (goto or reload): a
resolved response (null modelled by none) or a thrown value. -/
inductive NavOutcome where
  | ok (resp : Option Nat)
  | thrown (e : ErrVal)
deriving DecidableEq, Repr

/-- Outcome of one credential acquisition,
(proxyProvider?.get() ?? getAluviaProxy()).catch(...): a credential, a
resolution to a falsy value, or a rejection (caught, leaving the proxy
variable undefined). -/
inductive AcquireOutcome where
  | ok (p : ProxySettings)
  | okEmpty
  | thrown (e : ErrVal)
deriving DecidableEq, Repr

/-- Result of GotoRunner.goto: resolution with response and the page, or
rejection with a thrown value. -/
inductive GotoOutcome where
  | resolved (resp : Option Nat) (page : Nat)
  | rejected (e : ErrVal)
deriving DecidableEq, Repr

/-- Observable actions of an orchestrator run, in execution order. -/
inductive GotoEvent where
  | acquireAttempt (i : Nat)
  | proxyLoaded (p : ProxySettings)
  | upstreamSet (q : Option ProxySettings)
  | waited (d : ℚ)
  | onRetryCalled (i : Nat)
  | navCall (url : String)
  | reloadCall
deriving DecidableEq, Repr

/-- The asynchronous collaborators of one GotoRunner.goto call, one
outcome per attempt index: nav k is the k-th navigation call (k = 0 the
direct attempt, k = i the navigation of retry attempt i), acquire i and
obs i the credential acquisition and the onProxyLoaded observer outcome of
retry attempt i (obs i = some e models the observer throwing e), and
jitter k the Math.random()*100 sample of the k-th backoff computation. -/
structure GotoWorld where
  nav : Nat → NavOutcome
  acquire : Nat → AcquireOutcome
  obs : Nat → Option ErrVal
  jitter : Nat → ℚ

/-- The events of one successful credential phase of retry attempt i:
acquisition, observer call, upstream swap, conditional backoff wait,
onRetry callback, then the navigation call. Mirrors the statement order
inside the for loop of GotoRunner.goto. -/
def attemptEvents (bo : Nat) (url : String) (w : GotoWorld) (attempt : Nat)
    (p : ProxySettings) : List GotoEvent :=
  [.acquireAttempt attempt, .proxyLoaded p, .upstreamSet (some p)] ++
  (if 0 < bo then
    [.waited (backoffDelay bo (attempt - 1) (w.jitter (attempt - 1)))]
   else []) ++
  [.onRetryCalled attempt, .navCall url]

/-- The retry for loop of GotoRunner.goto (attempts attempt, attempt+1,
..., maxRetries; the fuel argument is maxRetries - attempt + 1). Each
iteration acquires a credential (throwing the AluviaError when none is
obtained), invokes the observer (whose exception propagates), swaps the
upstream, waits when backoffMs is positive, fires onRetry and navigates;
a retryable navigation failure continues, a non-retryable one breaks, and
falling off the loop rethrows the last failure through wrapNonError. -/
def gotoRetryLoop (ps : List RetryPattern) (bo : Nat) (page : Nat)
    (url : String) (w : GotoWorld) :
    Nat → Nat → ErrVal → GotoOutcome × List GotoEvent
  | 0, _, lastErr => (.rejected (wrapNonError lastErr), [])
  | n + 1, attempt, _ =>
    match w.acquire attempt with
    | .thrown _ => (.rejected aluviaProxyFetchError, [.acquireAttempt attempt])
    | .okEmpty => (.rejected aluviaProxyFetchError, [.acquireAttempt attempt])
    | .ok p =>
      match w.obs attempt with
      | some exc =>
        (.rejected exc, [.acquireAttempt attempt, .proxyLoaded p])
      | none =>
        match w.nav attempt with
        | .ok r => (.resolved r page, attemptEvents bo url w attempt p)
        | .thrown e =>
          if compileRetryableGoto ps e then
            ((gotoRetryLoop ps bo page url w n (attempt + 1) e).fst,
             attemptEvents bo url w attempt p ++
               (gotoRetryLoop ps bo page url w n (attempt + 1) e).snd)
          else
            (.rejected (wrapNonError e), attemptEvents bo url w attempt p)

/-- GotoRunner.goto: the direct attempt runs first with the current
upstream; a non-retryable failure is rethrown as is, a retryable one
enters the retry loop with maxRetries iterations of budget. The one-time
context close listener registration performs no action observed by any
claim and is not modelled. -/
def GotoRunner.goto (maxRetries bo : Nat) (ps : List RetryPattern)
    (page : Nat) (url : String) (w : GotoWorld) :
    GotoOutcome × List GotoEvent :=
  match w.nav 0 with
  | .ok r => (.resolved r page, [.navCall url])
  | .thrown e =>
    if compileRetryableGoto ps e then
      ((gotoRetryLoop ps bo page url w maxRetries 1 e).fst,
       .navCall url :: (gotoRetryLoop ps bo page url w maxRetries 1 e).snd)
    else (.rejected e, [.navCall url])

/-- Navigation events: goto calls and reload calls. -/
def isNavEv : GotoEvent → Bool
  | .navCall _ => true
  | .reloadCall => true
  | _ => false

/-- Backoff wait events. -/
def isWaitEv : GotoEvent → Bool
  | .waited _ => true
  | _ => false

/-- Credential acquisition events. -/
def isAcqEv : GotoEvent → Bool
  | .acquireAttempt _ => true
  | _ => false

/-- Upstream swap events. -/
def isUpstreamEv : GotoEvent → Bool
  | .upstreamSet _ => true
  | _ => false

/-- Number of navigation attempts recorded in a trace. -/
def cntNav (evs : List GotoEvent) : Nat := (evs.filter isNavEv).length

/-- Number of backoff waits recorded in a trace. -/
def cntWaits (evs : List GotoEvent) : Nat := (evs.filter isWaitEv).length

/-- Number of credential acquisitions recorded in a trace. -/
def cntAcq (evs : List GotoEvent) : Nat := (evs.filter isAcqEv).length

/-- Number of upstream swaps recorded in a trace. -/
def cntUpstream (evs : List GotoEvent) : Nat :=
  (evs.filter isUpstreamEv).length

theorem cntNav_append (a b : List GotoEvent) :
    cntNav (a ++ b) = cntNav a + cntNav b := by
  simp [cntNav, List.filter_append]

theorem cntNav_attemptEvents (bo : Nat) (url : String) (w : GotoWorld)
    (attempt : Nat) (p : ProxySettings) :
    cntNav (attemptEvents bo url w attempt p) = 1 := by
  by_cases hbo : 0 < bo <;>
    simp [attemptEvents, cntNav, isNavEv, hbo]

theorem gotoRetryLoop_success (ps : List RetryPattern) (bo : Nat)
    (page : Nat) (url : String) (w : GotoWorld) (r : Option Nat)
    (hacq : ∀ i, ∃ p, w.acquire i = .ok p)
    (hobs : ∀ i, w.obs i = none) :
    ∀ (m n attempt : Nat) (lastErr : ErrVal), m < n →
      (∀ k, k < m → ∃ e, w.nav (attempt + k) = .thrown e ∧
          compileRetryableGoto ps e = true) →
      w.nav (attempt + m) = .ok r →
      (gotoRetryLoop ps bo page url w n attempt lastErr).fst =
        .resolved r page ∧
      cntNav (gotoRetryLoop ps bo page url w n attempt lastErr).snd =
        m + 1 := by
  intro m
  induction m with
  | zero =>
    intro n attempt lastErr hmn hfail hsucc
    obtain ⟨n', rfl⟩ : ∃ n', n = n' + 1 := ⟨n - 1, by omega⟩
    obtain ⟨p, hp⟩ := hacq attempt
    rw [Nat.add_zero] at hsucc
    simp only [gotoRetryLoop, hp, hobs attempt, hsucc]
    exact ⟨trivial, cntNav_attemptEvents bo url w attempt p⟩
  | succ m ih =>
    intro n attempt lastErr hmn hfail hsucc
    obtain ⟨n', rfl⟩ : ∃ n', n = n' + 1 := ⟨n - 1, by omega⟩
    obtain ⟨p, hp⟩ := hacq attempt
    obtain ⟨e, he, hre⟩ := hfail 0 (Nat.succ_pos m)
    rw [Nat.add_zero] at he
    have hfail' : ∀ k, k < m → ∃ e', w.nav (attempt + 1 + k) = .thrown e' ∧
        compileRetryableGoto ps e' = true := by
      intro k hk
      have := hfail (k + 1) (by omega)
      rwa [show attempt + (k + 1) = attempt + 1 + k by omega] at this
    have hsucc' : w.nav (attempt + 1 + m) = .ok r := by
      rwa [show attempt + 1 + m = attempt + (m + 1) by omega]
    have hrec := ih n' (attempt + 1) e (by omega) hfail' hsucc'
    simp only [gotoRetryLoop, hp, hobs attempt, he, hre, if_true]
    refine ⟨hrec.1, ?_⟩
    rw [cntNav_append, cntNav_attemptEvents, hrec.2]
    omega

/-- C1. Explicit-path retry budget and surface reuse: with maxRetries = N,
when the navigation oracle fails retryably on attempts 1..N (indices
0..N-1) and succeeds on attempt N+1 (index N), while every credential
acquisition yields a credential and the observer returns normally,
GotoRunner.goto resolves with the response and the very page instance it
was given, and its trace records exactly N+1 navigation calls. -/
theorem goto_retry_budget_and_surface_reuse (N bo : Nat)
    (ps : List RetryPattern) (page : Nat) (url : String) (w : GotoWorld)
    (r : Option Nat)
    (hfail : ∀ k, k < N → ∃ e, w.nav k = .thrown e ∧
        compileRetryableGoto ps e = true)
    (hsucc : w.nav N = .ok r)
    (hacq : ∀ i, ∃ p, w.acquire i = .ok p)
    (hobs : ∀ i, w.obs i = none) :
    (GotoRunner.goto N bo ps page url w).fst = .resolved r page ∧
    cntNav (GotoRunner.goto N bo ps page url w).snd = N + 1 := by
  cases N with
  | zero =>
    simp only [GotoRunner.goto, hsucc]
    exact ⟨trivial, by simp [cntNav, isNavEv]⟩
  | succ N' =>
    obtain ⟨e0, he0, hre0⟩ := hfail 0 (Nat.succ_pos N')
    have hfail' : ∀ k, k < N' → ∃ e, w.nav (1 + k) = .thrown e ∧
        compileRetryableGoto ps e = true := by
      intro k hk
      have := hfail (k + 1) (by omega)
      rwa [show k + 1 = 1 + k by omega] at this
    have hsucc' : w.nav (1 + N') = .ok r := by
      rwa [show (1 : Nat) + N' = N' + 1 by omega]
    have hrec := gotoRetryLoop_success ps bo page url w r hacq hobs
      N' (N' + 1) 1 e0 (Nat.lt_succ_self N') hfail' hsucc'
    simp only [GotoRunner.goto, he0, hre0, if_true]
    refine ⟨hrec.1, ?_⟩
    show cntNav (.navCall url :: _) = N' + 1 + 1
    have : cntNav (GotoEvent.navCall url ::
        (gotoRetryLoop ps bo page url w (N' + 1) 1 e0).snd) =
        1 + cntNav (gotoRetryLoop ps bo page url w (N' + 1) 1 e0).snd := by
      simp [cntNav, isNavEv]
      omega
    rw [this, hrec.2]
    omega

/-- Concrete credential used by the witness worlds. -/
def pxA : ProxySettings := { server := "http://proxy.example:1000" }

/-- A typical retryable navigation failure: new Error carrying Timeout. -/
def timeoutErr : ErrVal :=
  { message := some "Timeout", name := some "Error",
    str := "Error: Timeout", isError := true, truthy := true }

/-- World for the C1 witness: the direct attempt throws a Timeout error,
every later navigation succeeds, acquisition always yields pxA, the
observer never throws. -/
def cw1 : GotoWorld :=
  { nav := fun k => if k = 0 then .thrown timeoutErr else .ok none,
    acquire := fun _ => .ok pxA,
    obs := fun _ => none,
    jitter := fun _ => 0 }

/-- Witness for C1 at maxRetries = 1: one retryable failure, success on
the second attempt, two navigation calls, the original page resolved. -/
theorem goto_retry_budget_and_surface_reuse_witness :
    (GotoRunner.goto 1 0 [RetryPattern.str "Timeout"] 7 "https://x" cw1).fst =
      .resolved none 7 ∧
    cntNav (GotoRunner.goto 1 0 [RetryPattern.str "Timeout"] 7 "https://x" cw1).snd = 2 :=
  goto_retry_budget_and_surface_reuse 1 0 [RetryPattern.str "Timeout"] 7
    "https://x" cw1 none
    (fun k hk => by
      have hk0 : k = 0 := Nat.lt_one_iff.mp hk
      subst hk0
      exact ⟨timeoutErr, rfl, by decide⟩)
    rfl (fun i => ⟨pxA, rfl⟩) (fun i => rfl)

/-- C4. A non-retryable failure of the direct attempt rejects immediately
with the original value: the whole run is the single navigation call, so
the trace records zero acquisitions, zero upstream swaps and zero backoff
waits. -/
theorem goto_nonretryable_first_failure_fatal (mr bo : Nat)
    (ps : List RetryPattern) (page : Nat) (url : String) (w : GotoWorld)
    (e : ErrVal)
    (hnav : w.nav 0 = .thrown e)
    (hfatal : compileRetryableGoto ps e = false) :
    GotoRunner.goto mr bo ps page url w = (.rejected e, [.navCall url]) ∧
    cntAcq (GotoRunner.goto mr bo ps page url w).snd = 0 ∧
    cntUpstream (GotoRunner.goto mr bo ps page url w).snd = 0 ∧
    cntWaits (GotoRunner.goto mr bo ps page url w).snd = 0 := by
  simp only [GotoRunner.goto, hnav, hfatal]
  refine ⟨rfl, ?_, ?_, ?_⟩ <;>
    simp [cntAcq, cntUpstream, cntWaits, isAcqEv, isUpstreamEv, isWaitEv]

/-- A failure matching no configured pattern. -/
def nonRetryableErr : ErrVal :=
  { message := some "NonRetryable", name := some "Error",
    str := "Error: NonRetryable", isError := true, truthy := true }

/-- World for the C4 witness: the direct attempt throws NonRetryable. -/
def cw4 : GotoWorld :=
  { nav := fun _ => .thrown nonRetryableErr,
    acquire := fun _ => .ok pxA,
    obs := fun _ => none,
    jitter := fun _ => 0 }

/-- Witness for C4: with retryOn = [Timeout], a NonRetryable direct
failure rejects at once with the original error and an empty side-effect
trace. -/
theorem goto_nonretryable_first_failure_fatal_witness :
    GotoRunner.goto 2 300 [RetryPattern.str "Timeout"] 3 "https://y" cw4 =
      (.rejected nonRetryableErr, [.navCall "https://y"]) ∧
    cntAcq (GotoRunner.goto 2 300 [RetryPattern.str "Timeout"] 3 "https://y" cw4).snd = 0 ∧
    cntUpstream (GotoRunner.goto 2 300 [RetryPattern.str "Timeout"] 3 "https://y" cw4).snd = 0 ∧
    cntWaits (GotoRunner.goto 2 300 [RetryPattern.str "Timeout"] 3 "https://y" cw4).snd = 0 :=
  goto_nonretryable_first_failure_fatal 2 300 [RetryPattern.str "Timeout"]
    3 "https://y" cw4 nonRetryableErr rfl (by decide)

theorem gotoRetryLoop_exhaust (ps : List RetryPattern) (bo : Nat)
    (page : Nat) (url : String) (w : GotoWorld) (errF : Nat → ErrVal)
    (hacq : ∀ i, ∃ p, w.acquire i = .ok p)
    (hobs : ∀ i, w.obs i = none) :
    ∀ (n attempt : Nat) (lastErr : ErrVal),
      (∀ k, k < n → w.nav (attempt + k) = .thrown (errF (attempt + k)) ∧
          compileRetryableGoto ps (errF (attempt + k)) = true) →
      (gotoRetryLoop ps bo page url w n attempt lastErr).fst =
        .rejected (wrapNonError
          (if n = 0 then lastErr else errF (attempt + n - 1))) := by
  intro n
  induction n with
  | zero =>
    intro attempt lastErr _
    simp [gotoRetryLoop]
  | succ n ih =>
    intro attempt lastErr hfail
    obtain ⟨p, hp⟩ := hacq attempt
    obtain ⟨he, hre⟩ := hfail 0 (Nat.succ_pos n)
    rw [Nat.add_zero] at he hre
    have hfail' : ∀ k, k < n →
        w.nav (attempt + 1 + k) = .thrown (errF (attempt + 1 + k)) ∧
        compileRetryableGoto ps (errF (attempt + 1 + k)) = true := by
      intro k hk
      have := hfail (k + 1) (by omega)
      rwa [show attempt + (k + 1) = attempt + 1 + k by omega] at this
    have hrec := ih (attempt + 1) (errF attempt) hfail'
    simp only [gotoRetryLoop, hp, hobs attempt, he, hre, if_true]
    rw [hrec, if_neg (Nat.succ_ne_zero n),
      show attempt + (n + 1) - 1 = attempt + n by omega]
    by_cases hn : n = 0
    · subst hn
      rw [if_pos rfl, Nat.add_zero]
    · rw [if_neg hn, show attempt + 1 + n - 1 = attempt + n by omega]

/-- C5 (amended). When the direct attempt and all maxRetries retry
attempts fail with retryable failures (acquisition succeeding and the
observer returning normally throughout), GotoRunner.goto rejects with the
last failure pushed through the final rethrow: an Error instance is
propagated as the very same value. -/
theorem goto_exhaustion_propagates_last_error (N bo : Nat)
    (ps : List RetryPattern) (page : Nat) (url : String) (w : GotoWorld)
    (errF : Nat → ErrVal)
    (hfail : ∀ k, k ≤ N → w.nav k = .thrown (errF k) ∧
        compileRetryableGoto ps (errF k) = true)
    (hacq : ∀ i, ∃ p, w.acquire i = .ok p)
    (hobs : ∀ i, w.obs i = none)
    (hIsErr : (errF N).isError = true) :
    (GotoRunner.goto N bo ps page url w).fst = .rejected (errF N) := by
  obtain ⟨he0, hre0⟩ := hfail 0 (Nat.zero_le N)
  have hfail' : ∀ k, k < N →
      w.nav (1 + k) = .thrown (errF (1 + k)) ∧
      compileRetryableGoto ps (errF (1 + k)) = true := by
    intro k hk
    exact hfail (1 + k) (by omega)
  have hrec := gotoRetryLoop_exhaust ps bo page url w errF hacq hobs
    N 1 (errF 0) hfail'
  simp only [GotoRunner.goto, he0, hre0, if_true]
  rw [hrec]
  have hidx : (if N = 0 then errF 0 else errF (1 + N - 1)) = errF N := by
    by_cases hN : N = 0
    · subst hN
      rw [if_pos rfl]
    · rw [if_neg hN]
      congr 1
      omega
  rw [hidx, show wrapNonError (errF N) = errF N from by
    simp [wrapNonError, hIsErr]]

/-- World for the C5 witness: every navigation throws the Timeout Error
instance. -/
def cw5 : GotoWorld :=
  { nav := fun _ => .thrown timeoutErr,
    acquire := fun _ => .ok pxA,
    obs := fun _ => none,
    jitter := fun _ => 0 }

/-- Witness for the amended C5: budget 1 exhausted on Error-instance
failures rejects with that very error value. -/
theorem goto_exhaustion_propagates_last_error_witness :
    (GotoRunner.goto 1 0 [RetryPattern.str "Timeout"] 0 "https://z" cw5).fst =
      .rejected timeoutErr :=
  goto_exhaustion_propagates_last_error 1 0 [RetryPattern.str "Timeout"]
    0 "https://z" cw5 (fun _ => timeoutErr)
    (fun k _ => ⟨rfl, by
      show compileRetryableGoto [RetryPattern.str "Timeout"] timeoutErr = true
      decide⟩)
    (fun i => ⟨pxA, rfl⟩) (fun i => rfl) rfl

/-- A thrown raw string Timeout: not an Error instance, truthy,
String(v) is the string itself, no message, code or name properties. -/
def strTimeoutErr : ErrVal :=
  { str := "Timeout", isError := false, truthy := true }

/-- World for the C5 counterexample: every navigation throws the raw
string Timeout. -/
def cw5s : GotoWorld :=
  { nav := fun _ => .thrown strTimeoutErr,
    acquire := fun _ => .ok pxA,
    obs := fun _ => none,
    jitter := fun _ => 0 }

/-- Counterexample to C5 as stated: exhausting the budget on a thrown
non-Error value rejects with new Error(String(v)) — a different, wrapped
value — not with the original failure value itself. -/
theorem goto_exhaustion_wraps_nonerror_counterexample :
    (GotoRunner.goto 1 0 [RetryPattern.str "Timeout"] 0 "https://z" cw5s).fst =
      .rejected (jsNewError "Timeout") ∧
    jsNewError "Timeout" ≠ strTimeoutErr := by
  constructor
  · decide
  · decide

/-- One step of the pairing check: an upstream swap is legal only when the
immediately preceding event is the observer call with the same
credential. -/
def upsStepOk (prev : Option GotoEvent) (e : GotoEvent) : Bool :=
  match e with
  | .upstreamSet q =>
    match prev, q with
    | some (.proxyLoaded p), some p2 => decide (p = p2)
    | _, _ => false
  | _ => true

/-- Every upstream swap in the trace is immediately preceded by the
observer invocation with the credential being applied. -/
def upsOk : Option GotoEvent → List GotoEvent → Bool
  | _, [] => true
  | prev, e :: rest => upsStepOk prev e && upsOk (some e) rest

theorem upsOk_gotoRetryLoop (ps : List RetryPattern) (bo : Nat)
    (page : Nat) (url : String) (w : GotoWorld) :
    ∀ (n attempt : Nat) (lastErr : ErrVal) (prev : Option GotoEvent),
      upsOk prev (gotoRetryLoop ps bo page url w n attempt lastErr).snd =
        true := by
  intro n
  induction n with
  | zero =>
    intro attempt lastErr prev
    simp [gotoRetryLoop, upsOk]
  | succ n ih =>
    intro attempt lastErr prev
    simp only [gotoRetryLoop]
    cases hA : w.acquire attempt with
    | thrown e => simp [upsOk, upsStepOk]
    | okEmpty => simp [upsOk, upsStepOk]
    | ok p =>
      cases hO : w.obs attempt with
      | some exc => simp [upsOk, upsStepOk]
      | none =>
        cases hN : w.nav attempt with
        | ok r =>
          by_cases hbo : 0 < bo <;>
            simp [attemptEvents, upsOk, upsStepOk, hbo]
        | thrown e =>
          by_cases hre : compileRetryableGoto ps e
          · simp only [hre, if_true]
            by_cases hbo : 0 < bo <;>
              simp [attemptEvents, upsOk, upsStepOk, hbo, ih]
          · simp only [hre, if_false]
            by_cases hbo : 0 < bo <;>
              simp [attemptEvents, upsOk, upsStepOk, hbo]

/-- C6 (amended). First conjunct: in every run of GotoRunner.goto, each
setUpstream application is immediately preceded by the onProxyLoaded
observer invocation with the very credential being applied. Second
conjunct: when the observer of the first retry attempt throws, the
exception propagates — the call rejects with the observer exception after
only the initial navigation call, aborting the retry sequence. -/
theorem goto_observer_order_and_throw_behavior :
    (∀ (mr bo : Nat) (ps : List RetryPattern) (page : Nat) (url : String)
        (w : GotoWorld),
      upsOk none (GotoRunner.goto mr bo ps page url w).snd = true) ∧
    (∀ (mr bo : Nat) (ps : List RetryPattern) (page : Nat) (url : String)
        (w : GotoWorld) (e : ErrVal) (p : ProxySettings) (exc : ErrVal),
      1 ≤ mr → w.nav 0 = .thrown e → compileRetryableGoto ps e = true →
      w.acquire 1 = .ok p → w.obs 1 = some exc →
      (GotoRunner.goto mr bo ps page url w).fst = .rejected exc ∧
      cntNav (GotoRunner.goto mr bo ps page url w).snd = 1) := by
  constructor
  · intro mr bo ps page url w
    unfold GotoRunner.goto
    cases hN : w.nav 0 with
    | ok r => simp [upsOk, upsStepOk]
    | thrown e =>
      by_cases hre : compileRetryableGoto ps e
      · simp only [hre, if_true]
        simp [upsOk, upsStepOk, upsOk_gotoRetryLoop]
      · simp [hre, upsOk, upsStepOk]
  · intro mr bo ps page url w e p exc hmr hnav hre hacq hobs
    obtain ⟨m, rfl⟩ : ∃ m, mr = m + 1 := ⟨mr - 1, by omega⟩
    simp only [GotoRunner.goto, hnav, hre, if_true, gotoRetryLoop, hacq,
      hobs]
    exact ⟨trivial, by simp [cntNav, isNavEv]⟩

/-- An exception value thrown by the onProxyLoaded observer. -/
def obsExc : ErrVal :=
  { message := some "observer failed", name := some "Error",
    str := "Error: observer failed", isError := true, truthy := true }

/-- World for C6: the direct navigation throws a retryable failure,
acquisition succeeds, and the observer throws on every attempt. -/
def cw6 : GotoWorld :=
  { nav := fun _ => .thrown timeoutErr,
    acquire := fun _ => .ok pxA,
    obs := fun _ => some obsExc,
    jitter := fun _ => 0 }

/-- Witness for the amended C6: with budget 2 the observer exception on
the first retry attempt rejects the call after a single navigation. -/
theorem goto_observer_order_and_throw_behavior_witness :
    (GotoRunner.goto 2 0 [RetryPattern.str "Timeout"] 0 "https://w" cw6).fst =
      .rejected obsExc ∧
    cntNav (GotoRunner.goto 2 0 [RetryPattern.str "Timeout"] 0 "https://w" cw6).snd = 1 :=
  goto_observer_order_and_throw_behavior.2 2 0 [RetryPattern.str "Timeout"]
    0 "https://w" cw6 timeoutErr pxA obsExc (by omega) rfl (by decide)
    rfl rfl

/-- Counterexample to C6 as stated: an observer exception does abort the
explicit-path retry sequence — this concrete run with budget 2 rejects
with the observer exception itself after only the initial navigation call,
instead of continuing the retries. -/
theorem goto_observer_throw_aborts_counterexample :
    (GotoRunner.goto 2 5 [RetryPattern.str "Timeout"] 1 "https://v" cw6).fst =
      .rejected obsExc ∧
    cntNav (GotoRunner.goto 2 5 [RetryPattern.str "Timeout"] 1 "https://v" cw6).snd = 1 ∧
    obsExc ≠ timeoutErr := by
  refine ⟨by decide, by decide, by decide⟩

theorem gotoRetryLoop_waits (ps : List RetryPattern) (bo : Nat)
    (page : Nat) (url : String) (w : GotoWorld) :
    ∀ (n attempt : Nat) (lastErr : ErrVal) (d : ℚ),
      GotoEvent.waited d ∈
        (gotoRetryLoop ps bo page url w n attempt lastErr).snd →
      0 < bo ∧ ∃ k, d = backoffDelay bo k (w.jitter k) := by
  intro n
  induction n with
  | zero =>
    intro attempt lastErr d hd
    simp [gotoRetryLoop] at hd
  | succ n ih =>
    intro attempt lastErr d hd
    cases hA : w.acquire attempt with
    | thrown e => simp [gotoRetryLoop, hA] at hd
    | okEmpty => simp [gotoRetryLoop, hA] at hd
    | ok p =>
      cases hO : w.obs attempt with
      | some exc => simp [gotoRetryLoop, hA, hO] at hd
      | none =>
        have hpre : GotoEvent.waited d ∈
            attemptEvents bo url w attempt p →
            0 < bo ∧ ∃ k, d = backoffDelay bo k (w.jitter k) := by
          intro hmem
          by_cases hbo : 0 < bo
          · simp [attemptEvents, hbo] at hmem
            exact ⟨hbo, attempt - 1, hmem⟩
          · simp [attemptEvents, hbo] at hmem
        cases hN : w.nav attempt with
        | ok r =>
          simp only [gotoRetryLoop, hA, hO, hN] at hd
          exact hpre hd
        | thrown e =>
          by_cases hre : compileRetryableGoto ps e = true
          · simp only [gotoRetryLoop, hA, hO, hN, hre, if_true] at hd
            rcases List.mem_append.mp hd with hd | hd
            · exact hpre hd
            · exact ih (attempt + 1) e d hd
          · simp only [gotoRetryLoop, hA, hO, hN, hre, if_false] at hd
            exact hpre hd

/-- The wait durations of a trace, in execution order. -/
def waitVals (evs : List GotoEvent) : List ℚ :=
  evs.filterMap fun ev =>
    match ev with
    | .waited d => some d
    | _ => none

theorem waitVals_append (a b : List GotoEvent) :
    waitVals (a ++ b) = waitVals a ++ waitVals b := by
  simp [waitVals, List.filterMap_append]

theorem waitVals_attemptEvents (bo : Nat) (url : String) (w : GotoWorld)
    (attempt : Nat) (p : ProxySettings) (hbo : 0 < bo) :
    waitVals (attemptEvents bo url w attempt p) =
      [backoffDelay bo (attempt - 1) (w.jitter (attempt - 1))] := by
  simp [attemptEvents, waitVals, hbo]

theorem gotoRetryLoop_waitVals (ps : List RetryPattern) (bo : Nat)
    (page : Nat) (url : String) (w : GotoWorld) (hbo : 0 < bo) :
    ∀ (n attempt : Nat) (lastErr : ErrVal), 1 ≤ attempt →
      ∃ m, waitVals (gotoRetryLoop ps bo page url w n attempt lastErr).snd =
        (List.range m).map
          (fun i => backoffDelay bo (attempt - 1 + i)
            (w.jitter (attempt - 1 + i))) := by
  intro n
  induction n with
  | zero =>
    intro attempt lastErr _
    exact ⟨0, by simp [gotoRetryLoop, waitVals]⟩
  | succ n ih =>
    intro attempt lastErr hatt
    cases hA : w.acquire attempt with
    | thrown e => exact ⟨0, by simp [gotoRetryLoop, hA, waitVals]⟩
    | okEmpty => exact ⟨0, by simp [gotoRetryLoop, hA, waitVals]⟩
    | ok p =>
      cases hO : w.obs attempt with
      | some exc => exact ⟨0, by simp [gotoRetryLoop, hA, hO, waitVals]⟩
      | none =>
        cases hN : w.nav attempt with
        | ok r =>
          refine ⟨1, ?_⟩
          simp only [gotoRetryLoop, hA, hO, hN]
          rw [waitVals_attemptEvents bo url w attempt p hbo]
          rfl
        | thrown e =>
          by_cases hre : compileRetryableGoto ps e = true
          · obtain ⟨m, hm⟩ := ih (attempt + 1) e (by omega)
            refine ⟨m + 1, ?_⟩
            simp only [gotoRetryLoop, hA, hO, hN, hre, if_true]
            rw [waitVals_append, waitVals_attemptEvents bo url w attempt p hbo,
              hm, List.range_succ_eq_map, List.map_cons, List.map_map]
            have hfun : ((fun i => backoffDelay bo (attempt - 1 + i)
                  (w.jitter (attempt - 1 + i))) ∘ Nat.succ) =
                fun i => backoffDelay bo (attempt + 1 - 1 + i)
                  (w.jitter (attempt + 1 - 1 + i)) := by
              funext i
              show backoffDelay bo (attempt - 1 + Nat.succ i)
                  (w.jitter (attempt - 1 + Nat.succ i)) = _
              rw [show attempt - 1 + Nat.succ i = attempt + 1 - 1 + i from by
                omega]
            rw [hfun]
            simp
          · refine ⟨1, ?_⟩
            simp only [gotoRetryLoop, hA, hO, hN]
            rw [if_neg hre, waitVals_attemptEvents bo url w attempt p hbo]
            rfl

/-- C8. Backoff computation. First conjunct: with baseMs = 0 the run
records no wait event at all — the timer branch is skipped entirely.
Second conjunct: the wait list of every run is positionally exact — the
i-th backoff wait of the run, which precedes the retry with zero-based
attempt index i, has duration baseMs * 2 ^ i + jitter i, with the i-th
Math.random()*100 jitter sample. Third conjunct: every recorded wait
requires a positive base and its jitter lies in [0, 100) under the jitter
oracle range hypothesis. -/
theorem goto_backoff_formula_and_zero_base (mr bo : Nat)
    (ps : List RetryPattern) (page : Nat) (url : String) (w : GotoWorld)
    (hj : ∀ k, 0 ≤ w.jitter k ∧ w.jitter k < 100) :
    ((GotoRunner.goto mr 0 ps page url w).snd.filter isWaitEv = []) ∧
    (∃ m, waitVals (GotoRunner.goto mr bo ps page url w).snd =
      (List.range m).map (fun i => (bo : ℚ) * 2 ^ i + w.jitter i)) ∧
    (∀ d, GotoEvent.waited d ∈ (GotoRunner.goto mr bo ps page url w).snd →
      0 < bo ∧ ∃ k j, 0 ≤ j ∧ j < 100 ∧ d = (bo : ℚ) * 2 ^ k + j) := by
  have hmem : ∀ (b : Nat) (d : ℚ),
      GotoEvent.waited d ∈ (GotoRunner.goto mr b ps page url w).snd →
      0 < b ∧ ∃ k, d = backoffDelay b k (w.jitter k) := by
    intro b d hd
    cases hN : w.nav 0 with
    | ok r => simp [GotoRunner.goto, hN] at hd
    | thrown e =>
      by_cases hre : compileRetryableGoto ps e = true
      · simp only [GotoRunner.goto, hN, hre, if_true,
          List.mem_cons] at hd
        rcases hd with hd | hd
        · exact absurd hd (by simp)
        · exact gotoRetryLoop_waits ps b page url w mr 1 e d hd
      · simp [GotoRunner.goto, hN, hre] at hd
  refine ⟨?_, ?_, ?_⟩
  · rw [List.filter_eq_nil_iff]
    intro ev hev hw
    have : ∃ d, ev = GotoEvent.waited d := by
      cases ev <;> simp [isWaitEv] at hw ⊢
    obtain ⟨d, rfl⟩ := this
    exact absurd (hmem 0 d hev).1 (by omega)
  · by_cases hbo : 0 < bo
    · cases hN : w.nav 0 with
      | ok r => exact ⟨0, by simp [GotoRunner.goto, hN, waitVals]⟩
      | thrown e =>
        by_cases hre : compileRetryableGoto ps e = true
        · obtain ⟨m, hm⟩ :=
            gotoRetryLoop_waitVals ps bo page url w hbo mr 1 e (le_refl 1)
          refine ⟨m, ?_⟩
          simp only [GotoRunner.goto, hN, hre, if_true]
          rw [show waitVals (GotoEvent.navCall url ::
              (gotoRetryLoop ps bo page url w mr 1 e).snd) =
              waitVals (gotoRetryLoop ps bo page url w mr 1 e).snd from by
            simp [waitVals], hm]
          refine List.map_congr_left ?_
          intro i _
          have harith : 1 - 1 + i = i := by omega
          simp [backoffDelay, harith]
        · exact ⟨0, by simp [GotoRunner.goto, hN, hre, waitVals]⟩
    · refine ⟨0, ?_⟩
      rw [List.range_zero, List.map_nil]
      rw [show (waitVals (GotoRunner.goto mr bo ps page url w).snd = []) =
          ((GotoRunner.goto mr bo ps page url w).snd.filterMap (fun ev =>
            match ev with
            | GotoEvent.waited d => some d
            | _ => none) = []) from rfl]
      rw [List.filterMap_eq_nil_iff]
      intro ev hev
      cases ev with
      | waited d => exact absurd (hmem bo d hev).1 hbo
      | _ => rfl
  · intro d hd
    obtain ⟨hbo, k, hk⟩ := hmem bo d hd
    exact ⟨hbo, k, w.jitter k, (hj k).1, (hj k).2, hk⟩

/-- World for the C8 witness: the direct attempt throws a retryable
Timeout, the first retry succeeds, acquisition yields pxA, the observer
returns, and every jitter sample is 5. -/
def cw8 : GotoWorld :=
  { nav := fun k => if k = 0 then .thrown timeoutErr else .ok none,
    acquire := fun _ => .ok pxA,
    obs := fun _ => none,
    jitter := fun _ => 5 }

/-- Witness for C8 on a run that really retries: with baseMs = 200 the
wait list is positionally pinned by the theorem and evaluates to the
single wait 200 * 2 ^ 0 + 5 before the first retry; with baseMs = 0 the
same retrying run records no wait event. -/
theorem goto_backoff_formula_and_zero_base_witness :
    (∃ m, waitVals (GotoRunner.goto 1 200 [RetryPattern.str "Timeout"] 0
        "https://u" cw8).snd =
      (List.range m).map (fun i => (200 : ℚ) * 2 ^ i + cw8.jitter i)) ∧
    waitVals (GotoRunner.goto 1 200 [RetryPattern.str "Timeout"] 0
        "https://u" cw8).snd =
      [backoffDelay 200 0 (cw8.jitter 0)] ∧
    (GotoRunner.goto 1 0 [RetryPattern.str "Timeout"] 0 "https://u" cw8).snd.filter
      isWaitEv = [] :=
  have hj : ∀ k, 0 ≤ cw8.jitter k ∧ cw8.jitter k < 100 := fun k =>
    ⟨by
      show (0 : ℚ) ≤ 5
      norm_num, by
      show (5 : ℚ) < 100
      norm_num⟩
  ⟨(goto_backoff_formula_and_zero_base 1 200 [RetryPattern.str "Timeout"]
      0 "https://u" cw8 hj).2.1,
   rfl,
   (goto_backoff_formula_and_zero_base 1 200 [RetryPattern.str "Timeout"]
      0 "https://u" cw8 hj).1⟩

/-- C2 (amended). Soundness and completeness of both compiled classifiers
with respect to the pattern-match specification: the explicit-path
classifier returns true iff the failure is truthy and some configured
pattern matches its derived message, code or name, hence it returns false
on every absent or falsy failure; the event-path classifier returns true
iff some pattern matches the derived strings, and on an absent failure
those strings are all empty, so an absent failure is classified retryable
exactly when some pattern matches the empty string. -/
theorem classifier_soundness_completeness_amended
    (ps : List RetryPattern) (e : ErrVal) (oe : Option ErrVal) :
    (compileRetryableGoto ps e = true ↔
      e.truthy = true ∧ ∃ p ∈ ps,
        MatchesSpec p (gotoMsg e) (gotoCode e) (gotoName e)) ∧
    (compileRetryableEvent ps oe = true ↔
      ∃ p ∈ ps, MatchesSpec p (eventMsg oe) (eventCode oe) (eventName oe)) ∧
    (compileRetryableEvent ps none =
      ps.any fun p => patternHits p "" "" "") := by
  refine ⟨?_, ?_, ?_⟩
  · unfold compileRetryableGoto
    cases ht : e.truthy with
    | false => simp
    | true =>
      simp only [if_true, true_and]
      rw [List.any_eq_true]
      constructor
      · rintro ⟨p, hp, hh⟩
        exact ⟨p, hp, (patternHits_iff p _ _ _).mp hh⟩
      · rintro ⟨p, hp, hh⟩
        exact ⟨p, hp, (patternHits_iff p _ _ _).mpr hh⟩
  · unfold compileRetryableEvent
    rw [List.any_eq_true]
    constructor
    · rintro ⟨p, hp, hh⟩
      exact ⟨p, hp, (patternHits_iff p _ _ _).mp hh⟩
    · rintro ⟨p, hp, hh⟩
      exact ⟨p, hp, (patternHits_iff p _ _ _).mpr hh⟩
  · rfl

/-- Counterexample to C2 as stated: the event-path classifier applied to
an absent failure with the configured pattern list containing the empty
string returns true, not false — an absent failure derives empty message,
code and name, and the empty string is a substring of the empty string. -/
theorem event_classifier_absent_failure_counterexample :
    compileRetryableEvent [RetryPattern.str ""] none = true := by
  decide

/-- Outcome of one event-driven retry sequence (retryNavigation): normal
return or a thrown value. -/
inductive EvOutcome where
  | returned
  | threw (e : ErrVal)
deriving DecidableEq, Repr

/-- A requestfailed notification as observed by the handlers:
request.failure()?.errorText, request.resourceType?.(), request.url?.()
(none models an absent value), and the page.isClosed() reading the
src variant takes at handler entry. -/
structure FailEvent where
  errorText : Option String := none
  resourceType : Option String := none
  url : Option String := none
  pageClosed : Bool := false
deriving DecidableEq, Repr

/-- Collaborator oracles for one event-driven retry sequence: per retry
attempt the acquisition, observer and navigation outcomes and the jitter
sample, plus whether the page object has a reload function and whether
page.isClosed() reads true just before the navigation of each attempt. -/
structure EvWorld where
  nav : Nat → NavOutcome
  acquire : Nat → AcquireOutcome
  obs : Nat → Option ErrVal
  jitter : Nat → ℚ
  reloadAvail : Bool
  closedAt : Nat → Bool

/-- Result of one requestfailed handler invocation: the single-flight flag
after the handler finished, whether a retry sequence was started, and the
outcome and trace of that sequence when one ran. -/
structure HandlerResult where
  inFlightAfter : Bool
  acted : Bool
  run : Option (EvOutcome × List GotoEvent)
deriving DecidableEq, Repr

/-- The trace of the retry sequence a handler ran, empty when none ran. -/
def runEvents (h : HandlerResult) : List GotoEvent :=
  match h.run with
  | some (_, evs) => evs
  | none => []

/-- The fall-off-the-loop rethrow of variant 3: an Error instance is
rethrown, a truthy non-Error is wrapped in new Error(String(v)), and an
absent or falsy last failure yields the fixed retry-failed Error. -/
def finalThrow3 : Option ErrVal → ErrVal
  | some e =>
    if e.isError then e
    else if e.truthy then jsNewError e.str
    else jsNewError "Navigation retry failed"
  | none => jsNewError "Navigation retry failed"

/-- The retry loop of variant 3 retryNavigation: per attempt acquire a
credential (throwing the AluviaError when none is obtained), invoke the
observer (its exception propagates), swap the upstream, wait when
backoffMs is positive, fire onRetry, then reload when available else
goto the failing URL; retryable failures continue, non-retryable ones
break, and falling off the loop throws through finalThrow3. -/
def retryLoop3 (ps : List RetryPattern) (bo : Nat) (w : EvWorld)
    (u : String) : Nat → Nat → Option ErrVal → EvOutcome × List GotoEvent
  | 0, _, lastErr => (.threw (finalThrow3 lastErr), [])
  | n + 1, attempt, _ =>
    match w.acquire attempt with
    | .thrown _ => (.threw aluviaProxyFetchError, [.acquireAttempt attempt])
    | .okEmpty => (.threw aluviaProxyFetchError, [.acquireAttempt attempt])
    | .ok p =>
      match w.obs attempt with
      | some exc =>
        (.threw exc, [.acquireAttempt attempt, .proxyLoaded p])
      | none =>
        let pre : List GotoEvent :=
          [.acquireAttempt attempt, .proxyLoaded p, .upstreamSet (some p)] ++
          (if 0 < bo then
            [.waited (backoffDelay bo (attempt - 1) (w.jitter (attempt - 1)))]
           else []) ++
          [.onRetryCalled attempt,
           if w.reloadAvail then .reloadCall else .navCall u]
        match w.nav attempt with
        | .ok _ => (.returned, pre)
        | .thrown e =>
          if compileRetryableEvent ps (some e) then
            ((retryLoop3 ps bo w u n (attempt + 1) (some e)).fst,
             pre ++ (retryLoop3 ps bo w u n (attempt + 1) (some e)).snd)
          else (.threw (finalThrow3 (some e)), pre)

/-- Variant 3 retryNavigation: a missing or empty (falsy) last URL
returns without any attempt, otherwise the loop runs with the full
maxRetries budget. -/
def retryNavigation3 (ps : List RetryPattern) (mr bo : Nat) (w : EvWorld)
    (lastUrl : Option String) : EvOutcome × List GotoEvent :=
  match lastUrl with
  | none => (.returned, [])
  | some u => if u = "" then (.returned, []) else retryLoop3 ps bo w u mr 1 none

/-- The requestfailed handler attached by variant 3: an in-flight retry
ignores the notification outright; then the failure text and resource
type are read, non-navigation resource types are ignored, non-retryable
failure texts are ignored, and otherwise the flag is set, the retry
sequence runs, and the finally clause clears the flag whatever the
outcome. -/
def requestFailedHandler3 (ps : List RetryPattern) (mr bo : Nat)
    (w : EvWorld) (inFlight : Bool) (ev : FailEvent) : HandlerResult :=
  if inFlight then ⟨inFlight, false, none⟩
  else if ¬ ((["document", "frame", "main_frame"] : List String).contains
      (ev.resourceType.getD "")) then
    ⟨false, false, none⟩
  else if ¬ (compileRetryableEvent ps
      (some (errorTextObj (ev.errorText.getD ""))) = true) then
    ⟨false, false, none⟩
  else ⟨false, true, some (retryNavigation3 ps mr bo w ev.url)⟩

/-- The fall-off-the-loop throw of the src variant: if (lastErr) throw
lastErr — a truthy last failure is rethrown unwrapped, otherwise the
function returns normally. -/
def finalSrc : Option ErrVal → EvOutcome
  | some e => if e.truthy then .threw e else .returned
  | none => .returned

/-- The retry loop of src/event-runner.ts retryNavigation: per attempt
the onRetry callback fires first; on attempt 1 only, the credential block
runs inside a try whose catch swallows everything (acquire, setUpstream
with whatever was resolved, then the observer); then the conditional
backoff wait; then, unless the page is closed, reload when available else
goto the failing URL (the goto indirection through the patched wrapper is
not modelled, no claim depends on it); retryable failures continue,
non-retryable ones break, and falling off the loop throws the last
failure unwrapped when truthy. -/
def retryLoopSrc (ps : List RetryPattern) (bo : Nat) (w : EvWorld)
    (u : String) : Nat → Nat → Option ErrVal → EvOutcome × List GotoEvent
  | 0, _, lastErr => (finalSrc lastErr, [])
  | n + 1, attempt, _ =>
    let acqEvs : List GotoEvent :=
      if attempt = 1 then
        match w.acquire 1 with
        | .thrown _ => [.acquireAttempt 1]
        | .okEmpty => [.acquireAttempt 1, .upstreamSet none]
        | .ok p => [.acquireAttempt 1, .upstreamSet (some p), .proxyLoaded p]
      else []
    let evs : List GotoEvent :=
      [.onRetryCalled attempt] ++ acqEvs ++
      (if 0 < bo then
        [.waited (backoffDelay bo (attempt - 1) (w.jitter (attempt - 1)))]
       else [])
    if w.closedAt attempt then (.returned, evs)
    else
      let evs2 := evs ++ [if w.reloadAvail then .reloadCall else .navCall u]
      match w.nav attempt with
      | .ok _ => (.returned, evs2)
      | .thrown e =>
        if compileRetryableEvent ps (some e) then
          ((retryLoopSrc ps bo w u n (attempt + 1) (some e)).fst,
           evs2 ++ (retryLoopSrc ps bo w u n (attempt + 1) (some e)).snd)
        else (finalSrc (some e), evs2)

/-- Src variant retryNavigation: a missing or empty last URL returns
without any attempt, otherwise the loop runs with the full budget. -/
def retryNavigationSrc (ps : List RetryPattern) (mr bo : Nat) (w : EvWorld)
    (lastUrl : Option String) : EvOutcome × List GotoEvent :=
  match lastUrl with
  | none => (.returned, [])
  | some u => if u = "" then (.returned, []) else retryLoopSrc ps bo w u mr 1 none

/-- The requestfailed handler attached by src/event-runner.ts: a closed
page is ignored, then the failure text is classified (no resource-type
check exists in this variant), an in-flight retry ignores the
notification, and otherwise the flag is set, the retry sequence runs with
its throw swallowed by the catch, and the finally clause clears the
flag. -/
def requestFailedHandlerSrc (ps : List RetryPattern) (mr bo : Nat)
    (w : EvWorld) (inFlight : Bool) (ev : FailEvent) : HandlerResult :=
  if ev.pageClosed then ⟨inFlight, false, none⟩
  else if ¬ (compileRetryableEvent ps
      (some (errorTextObj (ev.errorText.getD ""))) = true) then
    ⟨inFlight, false, none⟩
  else if inFlight then ⟨inFlight, false, none⟩
  else ⟨false, true, some (retryNavigationSrc ps mr bo w ev.url)⟩

/-- C3. Event-driven single-flight per surface and flag clearing, for
both EventRunner variants: a notification arriving while the flag of that
surface is set is ignored outright (no retry sequence starts and the flag
stays set, so exactly one sequence is ever in flight per surface); and
whenever a handler runs with the flag clear, the flag is clear again when
the handler finishes, whatever the outcome of the retry sequence
(success, a thrown fatal error, or budget exhaustion — the finally clause
runs in every case, the world oracle quantifies over all outcomes). -/
theorem event_single_flight_and_flag_cleared (ps : List RetryPattern)
    (mr bo : Nat) (w : EvWorld) (ev : FailEvent) :
    requestFailedHandler3 ps mr bo w true ev = ⟨true, false, none⟩ ∧
    (requestFailedHandler3 ps mr bo w false ev).inFlightAfter = false ∧
    requestFailedHandlerSrc ps mr bo w true ev = ⟨true, false, none⟩ ∧
    (requestFailedHandlerSrc ps mr bo w false ev).inFlightAfter = false := by
  refine ⟨rfl, ?_, ?_, ?_⟩
  · unfold requestFailedHandler3
    split_ifs <;> rfl
  · unfold requestFailedHandlerSrc
    split_ifs <;> first | rfl | simp_all
  · unfold requestFailedHandlerSrc
    split_ifs <;> rfl

/-- The C7 failing input: a requestfailed notification for an image
subresource whose failure text matches the configured Timeout pattern,
on an open page with no retry in flight. -/
def evImage : FailEvent :=
  { errorText := some "Timeout", resourceType := some "image",
    url := some "http://img.example/", pageClosed := false }

/-- Event world for C7: acquisition succeeds, the observer returns, the
page has a reload function, is never closed, and the first reload
succeeds. -/
def ew7 : EvWorld :=
  { nav := fun _ => .ok none,
    acquire := fun _ => .ok pxA,
    obs := fun _ => none,
    jitter := fun _ => 0,
    reloadAvail := true,
    closedAt := fun _ => false }

/-- C7 evidence. At the failing input (image subresource, retryable
failure text) the src/event-runner.ts handler starts a retry sequence —
one credential acquisition, one upstream swap and one reload are
performed — because that variant never inspects the resource type; the
variant-3 handler at the very same input ignores the notification
entirely, as the claim, the spec and the repository test demand. -/
theorem event_subresource_retry_divergence :
    (requestFailedHandlerSrc [RetryPattern.str "Timeout"] 2 0 ew7 false
      evImage).acted = true ∧
    cntNav (runEvents (requestFailedHandlerSrc [RetryPattern.str "Timeout"]
      2 0 ew7 false evImage)) = 1 ∧
    cntAcq (runEvents (requestFailedHandlerSrc [RetryPattern.str "Timeout"]
      2 0 ew7 false evImage)) = 1 ∧
    cntUpstream (runEvents (requestFailedHandlerSrc [RetryPattern.str "Timeout"]
      2 0 ew7 false evImage)) = 1 ∧
    requestFailedHandler3 [RetryPattern.str "Timeout"] 2 0 ew7 false
      evImage = ⟨false, false, none⟩ := by
  refine ⟨by decide, by decide, by decide, by decide, by decide⟩

/-- JavaScript truthy string defaulting, v || d: null, undefined and the
empty string give the default. -/
def jsOrStr (o : Option String) (d : String) : String :=
  match o with
  | none => d
  | some s => if s = "" then d else s

/-- Value of a decimal digit character. -/
def digitsToNat (cs : List Char) : Nat :=
  cs.foldl (fun a c => a * 10 + (c.toNat - 48)) 0

/-- parseInt(s, 10): trim, optional sign, then the longest leading run of
decimal digits; none models NaN (no digits). -/
def jsParseIntOpt (s : String) : Option Int :=
  let t := (s.data.dropWhile (fun c => c.isWhitespace)).reverse.dropWhile
    (fun c => c.isWhitespace) |>.reverse
  let signed : Int × List Char :=
    match t with
    | '-' :: r => (-1, r)
    | '+' :: r => (1, r)
    | r => (1, r)
  let ds := signed.snd.takeWhile (fun c => c.isDigit)
  if ds.isEmpty then none else some (signed.fst * (digitsToNat ds : Int))

/-- ENV_MAX_RETRIES = Math.max(0, parseInt(env || "2", 10)): none models
the NaN that Math.max propagates. -/
def ENV_MAX_RETRIES (env : Option String) : Option Int :=
  (jsParseIntOpt (jsOrStr env "2")).map (fun n => max 0 n)

/-- ENV_BACKOFF_MS = Math.max(0, parseInt(env || "300", 10)). -/
def ENV_BACKOFF_MS (env : Option String) : Option Int :=
  (jsParseIntOpt (jsOrStr env "300")).map (fun n => max 0 n)

/-- ENV_RETRY_ON = (env ?? default).split(",").map(trim).filter(Boolean);
the nullish default keeps an explicitly empty environment value. -/
def ENV_RETRY_ON (env : Option String) : List String :=
  (((env.getD "ECONNRESET,ETIMEDOUT,net::ERR,Timeout,net::ERR_ABORTED").data.splitOn
      ',').map (fun cs =>
      String.mk ((cs.dropWhile (fun c => c.isWhitespace)).reverse.dropWhile
        (fun c => c.isWhitespace) |>.reverse))).filter
    (fun s => decide (s ≠ ""))

/-- DEFAULT_RETRY_PATTERNS: each value of ENV_RETRY_ON becomes a compiled
regular expression when it is written /.../ (the regex compiler is an
oracle parameter), otherwise a literal substring pattern. -/
def DEFAULT_RETRY_PATTERNS (rc : String → String → Bool)
    (env : Option String) : List RetryPattern :=
  (ENV_RETRY_ON env).map fun v =>
    if (decide (v.data.take 1 = ['/'])) &&
       (decide (v.data.reverse.take 1 = ['/'])) then
      RetryPattern.regex (String.mk (v.data.drop 1 |>.dropLast))
        (rc (String.mk (v.data.drop 1 |>.dropLast)))
    else RetryPattern.str v

/-- The string view of a pattern list: literal patterns by value, regex
patterns as none (their test functions have no decidable equality). -/
def patternStrings (ps : List RetryPattern) : List (Option String) :=
  ps.map fun p =>
    match p with
    | .str s => some s
    | .regex _ _ => none

/-- The options record accepted by agentConnect, every field optional;
the dynamic proxy is identified by an opaque handle id. -/
structure AgentConnectOptions where
  dynamicProxy : Option Nat := none
  maxRetries : Option Int := none
  backoffMs : Option Int := none
  retryOn : Option (List RetryPattern) := none

/-- The configuration the returned runner closes over after destructuring
with environment-level defaults. -/
structure ResolvedConfig where
  dynamicProxy : Nat
  maxRetries : Option Int
  backoffMs : Option Int
  retryOn : List RetryPattern

/-- agentConnect(page, options): destructure the options with the
environment defaults, then throw the AluviaError with code
NoDynamicProxy when no dynamic proxy was supplied — before constructing
any runner, so an error result carries no configuration and no side
effect has occurred. -/
def agentConnect (envMaxRetries envBackoffMs envRetryOn : Option String)
    (rc : String → String → Bool) (opts : Option AgentConnectOptions) :
    Except ErrVal ResolvedConfig :=
  let o := opts.getD {}
  let mr := match o.maxRetries with
    | some v => some v
    | none => ENV_MAX_RETRIES envMaxRetries
  let bo := match o.backoffMs with
    | some v => some v
    | none => ENV_BACKOFF_MS envBackoffMs
  let ro := o.retryOn.getD (DEFAULT_RETRY_PATTERNS rc envRetryOn)
  match o.dynamicProxy with
  | none => .error noDynamicProxyError
  | some d => .ok ⟨d, mr, bo, ro⟩

/-- The retry pattern strings of a construction result, empty on error. -/
def resolvedRetryStrings (r : Except ErrVal ResolvedConfig) :
    List (Option String) :=
  match r with
  | .ok c => patternStrings c.retryOn
  | .error _ => []

/-- C9 (amended). With no environment overrides and no caller options
beyond the dynamic proxy, the orchestrator is constructed with
maxRetries = 2, backoffMs = 300 and retryOn equal to exactly the five
literal patterns ECONNRESET, ETIMEDOUT, net::ERR, Timeout and
net::ERR_ABORTED, whatever the regex compiler (no default entry is
written as a regular expression). -/
theorem agent_connect_program_defaults_amended
    (rc : String → String → Bool) (d : Nat) :
    (agentConnect none none none rc
      (some { dynamicProxy := some d })).toOption.map
      (fun c => (c.dynamicProxy, c.maxRetries, c.backoffMs,
        patternStrings c.retryOn)) =
    some (d, some 2, some 300,
      [some "ECONNRESET", some "ETIMEDOUT", some "net::ERR",
       some "Timeout", some "net::ERR_ABORTED"]) := rfl

/-- Counterexample to C9 as stated: the default retryOn list is not the
four claimed patterns — it is five patterns, the extra one being
net::ERR_ABORTED. -/
theorem default_retry_patterns_counterexample :
    resolvedRetryStrings (agentConnect none none none (fun _ _ => false)
      (some { dynamicProxy := some 0 })) =
      [some "ECONNRESET", some "ETIMEDOUT", some "net::ERR",
       some "Timeout", some "net::ERR_ABORTED"] ∧
    ([some "ECONNRESET", some "ETIMEDOUT", some "net::ERR",
      some "Timeout", some "net::ERR_ABORTED"] : List (Option String)) ≠
      [some "ECONNRESET", some "ETIMEDOUT", some "net::ERR",
       some "Timeout"] := by
  exact ⟨rfl, by decide⟩

/-- C10. Calling agentConnect with no options at all, or with options
lacking a dynamic proxy, fails at construction with the AluviaError
carrying code ALUVIA_NO_DYNAMIC_PROXY: the result is an error, so no
runner configuration exists and no navigation, acquisition or upstream
mutation can follow from the call. -/
theorem agent_connect_requires_dynamic_proxy
    (envMaxRetries envBackoffMs envRetryOn : Option String)
    (rc : String → String → Bool) (opts : Option AgentConnectOptions)
    (hnone : opts = none ∨
      ∃ o, opts = some o ∧ o.dynamicProxy = none) :
    agentConnect envMaxRetries envBackoffMs envRetryOn rc opts =
      .error noDynamicProxyError ∧
    noDynamicProxyError.code = some "ALUVIA_NO_DYNAMIC_PROXY" ∧
    noDynamicProxyError.name = some "AluviaError" := by
  refine ⟨?_, rfl, rfl⟩
  rcases hnone with rfl | ⟨o, rfl, ho⟩
  · rfl
  · simp only [agentConnect, Option.getD_some, ho]

/-- Witness for C10 at the empty call. -/
theorem agent_connect_requires_dynamic_proxy_witness :
    agentConnect none none none (fun _ _ => false) none =
      .error noDynamicProxyError ∧
    noDynamicProxyError.code = some "ALUVIA_NO_DYNAMIC_PROXY" ∧
    noDynamicProxyError.name = some "AluviaError" :=
  agent_connect_requires_dynamic_proxy none none none (fun _ _ => false)
    none (Or.inl rfl)
